import Mathlib

/-!
Shallow embedding of the OpenDAL backend-adapter core covered by the spec:
the Gdrive builder (src/core/src/services/gdrive/builder.rs) and the
Vercel Artifacts backend (src/core/src/services/vercel_artifacts/backend.rs).
Collaborators that live elsewhere in the crate (HttpClient, normalize_root,
the error normalizer, the writer, Capability/AccessorInfo) are modelled from
the spec, each marked by a doc comment starting with `Modelled from the spec:`.
-/

namespace OpendalCore

/-- Modelled from the spec: the closed error taxonomy of §7
(`ErrorKind` lives in crate::types, not under src/). -/
inductive ErrorKind
  | ConfigInvalid
  | Unsupported
  | NotFound
  | PermissionDenied
  | ConditionNotMatch
  | Unexpected
  deriving DecidableEq

/-- Modelled from the spec: the normalized error value of §3/§7
(crate::Error, not under src/): kind, message, operation name,
context map of diagnostic pairs, and a transient flag. -/
structure Error where
  kind : ErrorKind
  message : String
  operation : Option String := none
  context : List (String × String) := []
  temporary : Bool := false
  deriving DecidableEq

/-- `Error::new(kind, message)` -/
def Error.new (kind : ErrorKind) (message : String) : Error :=
  { kind := kind, message := message }

/-- Modelled from the spec: `Error::with_operation` (crate::Error, not under
src/) records the operation name on the error; the kind is never stripped. -/
def Error.with_operation (e : Error) (op : String) : Error :=
  { e with operation := some op }

/-- Modelled from the spec: `Error::with_context` (crate::Error, not under
src/) appends one diagnostic key/value pair; the kind is never stripped. -/
def Error.with_context (e : Error) (k v : String) : Error :=
  { e with context := e.context ++ [(k, v)] }

/-- The service scheme identifiers used by the two adapters in scope. -/
inductive Scheme
  | Gdrive
  | VercelArtifacts
  deriving DecidableEq

/-- Display form of a scheme, used when a scheme is recorded as an error
context value. -/
def Scheme.name : Scheme → String
  | .Gdrive => "gdrive"
  | .VercelArtifacts => "vercel_artifacts"

/-- Modelled from the spec: the injected transport client collaborator of §6
(crate::raw::HttpClient, not under src/): a cheaply cloneable shared handle;
operations send requests through it.  Modelled as an opaque handle value; the
actual response behaviour of the transport is passed to each operation as an
explicit `remote` function (the transport double of §8). -/
structure HttpClient where
  handle : Nat := 0
  deriving DecidableEq

/-- Modelled from the spec: `HttpClient::new()` (crate::raw, not under src/);
per §6 the transport collaborator "must be independently constructible with a
no-argument default", so the external default construction succeeds. -/
def HttpClient.new : Except Error HttpClient := .ok {}

inductive HttpMethod
  | GET
  | PUT
  deriving DecidableEq

/-- Modelled from the spec: the abstract request model of §6 — method, URL,
headers, optional body. -/
structure HttpRequest where
  method : HttpMethod
  url : String
  headers : List (String × String) := []
  body : String := ""
  deriving DecidableEq

/-- Modelled from the spec: the abstract response model of §6 — status,
headers, streaming body. -/
structure HttpResponse where
  status : Nat
  headers : List (String × String) := []
  body : String := ""
  deriving DecidableEq

/-- The body of a response, consumed as the reader stream. -/
abbrev IncomingAsyncBody := String

/-- `AsyncBody::Empty` -/
def AsyncBody.Empty : String := ""

/-- Modelled from the spec: the Capability Descriptor fields of §6 — booleans
`read`, `write`, `delete`, `list`, `rename`, `copy`, all defaulting to false
(crate::Capability, not under src/). -/
structure Capability where
  read : Bool := false
  write : Bool := false
  delete : Bool := false
  list : Bool := false
  rename : Bool := false
  copy : Bool := false
  deriving DecidableEq

/-- Modelled from the spec: `AccessorInfo` (crate::raw, not under src/) — the
record answered by `info()`: the backend's scheme and its fixed Capability
Descriptor. -/
structure AccessorInfo where
  scheme : Option Scheme := none
  capability : Capability := {}
  deriving DecidableEq

/-- `AccessorInfo::set_scheme` -/
def AccessorInfo.set_scheme (ma : AccessorInfo) (s : Scheme) : AccessorInfo :=
  { ma with scheme := some s }

/-- `AccessorInfo::set_capability` -/
def AccessorInfo.set_capability (ma : AccessorInfo) (c : Capability) : AccessorInfo :=
  { ma with capability := c }

/-! ## Root normalization

`normalize_root` lives in crate::raw (not under src/), so it is modelled from
the spec: the root is "a normalized, absolute, slash-separated prefix" that
"always begins and ends with a separator after normalization; empty/absent
input normalizes to the root scope" (§3), with sample behaviour from §8
("a/b" and "/a/b/" both normalize to a form wrapped in separators).  The model
splits the input on the separator, drops empty components, rejoins, and wraps
the result in separators; empty input yields the root scope "/". -/

/-- Split a character list on the separator character; accumulator holds the
current component reversed. -/
def splitAux : List Char → List Char → List (List Char)
  | [], acc => [acc.reverse]
  | c :: cs, acc =>
      if c = '/' then acc.reverse :: splitAux cs []
      else splitAux cs (c :: acc)

/-- The nonempty slash-separated components of a character list. -/
def components (s : List Char) : List (List Char) :=
  (splitAux s []).filter (fun p => p ≠ [])

/-- Join components with the separator character. -/
def joinComponents : List (List Char) → List Char
  | [] => []
  | [p] => p
  | p :: q :: rest => p ++ '/' :: joinComponents (q :: rest)

/-- Modelled from the spec: `normalize_root` (crate::raw, not under src/):
drop empty components, rejoin on the separator, wrap in leading and trailing
separators; empty or component-free input normalizes to the root scope. -/
def normalize_root (v : String) : String :=
  match components v.data with
  | [] => "/"
  | p :: rest => String.mk ('/' :: joinComponents (p :: rest) ++ ['/'])

/-! ## Gdrive builder (src/core/src/services/gdrive/builder.rs) -/

/-- `GdriveBuilder`: optional access token, optional root, optional injected
transport client; `#[derive(Default)]` gives all fields `None`. -/
structure GdriveBuilder where
  access_token : Option String := none
  root : Option String := none
  http_client : Option HttpClient := none
  deriving DecidableEq

/-- Setter `GdriveBuilder::access_token`. -/
def GdriveBuilder.set_access_token (b : GdriveBuilder) (v : String) : GdriveBuilder :=
  { b with access_token := some v }

/-- Setter `GdriveBuilder::root`. -/
def GdriveBuilder.set_root (b : GdriveBuilder) (v : String) : GdriveBuilder :=
  { b with root := some v }

/-- Setter `GdriveBuilder::http_client`. -/
def GdriveBuilder.set_http_client (b : GdriveBuilder) (c : HttpClient) : GdriveBuilder :=
  { b with http_client := some c }

/-- The configuration map: string keys to string values, looked up as
`HashMap::get` does. -/
abbrev ConfigMap := List (String × String)

/-- `GdriveBuilder::from_map`: start from the default builder, apply the root
setter when key "root" is present, then the access-token setter when key
"access_token" is present. -/
def GdriveBuilder.from_map (m : ConfigMap) : GdriveBuilder :=
  let builder : GdriveBuilder := {}
  let builder :=
    match m.lookup "root" with
    | some v => builder.set_root v
    | none => builder
  match m.lookup "access_token" with
  | some v => builder.set_access_token v
  | none => builder

/-- Modelled from the spec: the backend produced by `GdriveBuilder::build`
(services/gdrive/backend.rs, not under src/): per §3 it is immutable and owns
the root, the credential and the shared transport client. -/
structure GdriveBackend where
  root : String
  access_token : String
  client : HttpClient
  deriving DecidableEq

/-- `GdriveBackend::new(root, access_token, client)` -/
def GdriveBackend.new (root access_token : String) (client : HttpClient) : GdriveBackend :=
  { root := root, access_token := access_token, client := client }

/-- Debug formatting of the builder
(`f.debug_struct("Backend").field("root", &self.root).finish()`):
only the root field is printed. -/
def GdriveBuilder.debugFmt (b : GdriveBuilder) : String :=
  let rootFmt :=
    match b.root with
    | none => "None"
    | some v => "Some(\"" ++ v ++ "\")"
  "Backend \x7b root: " ++ rootFmt ++ " \x7d"

/-- The debug-level record emitted by `build()`:
`debug!("backend use root {}", root)` after normalization. -/
def GdriveBuilder.buildLogMsg (b : GdriveBuilder) : String :=
  "backend use root " ++ normalize_root (b.root.getD "")

/-- `GdriveBuilder::build(&mut self)`.  The outcome of the external
`HttpClient::new()` call is passed in as `newClient` (its actual spec-modelled
value is `HttpClient.new`).  Returns the build result together with the
builder's state after the call: `self.root.take()` and
`self.http_client.take()` empty those two fields, while the access token is
only cloned (`self.access_token.clone()`). -/
def GdriveBuilder.build (b : GdriveBuilder) (newClient : Except Error HttpClient) :
    Except Error GdriveBackend × GdriveBuilder :=
  let root := normalize_root (b.root.getD "")
  let b' : GdriveBuilder := { b with root := none, http_client := none }
  let clientRes : Except Error HttpClient :=
    match b.http_client with
    | some client => .ok client
    | none =>
        match newClient with
        | .ok client => .ok client
        | .error err =>
            .error ((err.with_operation "Builder::build").with_context "service" Scheme.Gdrive.name)
  match clientRes with
  | .error e => (.error e, b')
  | .ok client =>
      match b.access_token with
      | some access_token => (.ok (GdriveBackend.new root access_token client), b')
      | none => (.error (Error.new .ConfigInvalid "access_token not set"), b')

/-! ## Vercel Artifacts backend (src/core/src/services/vercel_artifacts/backend.rs) -/

/-- Modelled from the spec: `OpRead` (crate::ops, not under src/): read
options include an optional byte range (§4.2); the Vercel Artifacts read
ignores its args (`_args`). -/
structure OpRead where
  range : Option (Nat × Nat) := none
  deriving DecidableEq

/-- Modelled from the spec: `OpWrite` (crate::ops, not under src/): write
options carry the optional declared content length (§4.2). -/
structure OpWrite where
  content_length : Option Nat := none
  deriving DecidableEq

/-- Modelled from the spec: object metadata as returned by read (§4.2): at
least a content length, plus the content type where available
(crate::Metadata, not under src/). -/
structure Metadata where
  content_length : Option Nat := none
  content_type : Option String := none
  deriving DecidableEq

/-- Modelled from the spec: `parse_into_metadata` (crate::raw, not under
src/): extracts the metadata fields from the response headers. -/
def parse_into_metadata (_path : String) (headers : List (String × String)) :
    Except Error Metadata :=
  .ok { content_length := (headers.lookup "content-length").bind String.toNat?,
        content_type := headers.lookup "content-type" }

/-- `RpRead`: the typed read response carrying the parsed metadata. -/
structure RpRead where
  metadata : Metadata
  deriving DecidableEq

/-- `RpRead::with_metadata` -/
def RpRead.with_metadata (m : Metadata) : RpRead := { metadata := m }

/-- `RpWrite`: the typed write response; `RpWrite::default()` is the empty
record. -/
structure RpWrite where
  deriving DecidableEq

/-- `RpWrite::default()` -/
def RpWrite.default : RpWrite := {}

/-- `VercelArtifactsBackend`: access token plus shared transport client. -/
structure VercelArtifactsBackend where
  access_token : String
  client : HttpClient
  deriving DecidableEq

/-- Debug formatting of the Vercel Artifacts backend
(`debug_struct("VercelArtifactsBackend").field("access_token", &self.access_token)`):
the access token field is printed. -/
def VercelArtifactsBackend.debugFmt (b : VercelArtifactsBackend) : String :=
  "VercelArtifactsBackend \x7b access_token: \"" ++ b.access_token ++ "\" \x7d"

/-- `VercelArtifactsBackend::info`: a fresh default `AccessorInfo` with the
scheme set to VercelArtifacts and the capability set to
`Capability { read: true, write: true, ..Default::default() }`. -/
def VercelArtifactsBackend.info (_b : VercelArtifactsBackend) : AccessorInfo :=
  let ma : AccessorInfo := {}
  (ma.set_scheme .VercelArtifacts).set_capability { read := true, write := true }

/-- The GET request built by `vercel_artifacts_get`: URL
`https://api.vercel.com/v8/artifacts/{hash}`, bearer authorization header,
empty body. -/
def VercelArtifactsBackend.get_request (b : VercelArtifactsBackend) (hash : String) :
    HttpRequest :=
  { method := .GET,
    url := "https://api.vercel.com/v8/artifacts/" ++ hash,
    headers := [("authorization", "Bearer " ++ b.access_token)],
    body := AsyncBody.Empty }

/-- `VercelArtifactsBackend::vercel_artifacts_get`: build the GET request and
send it once through the client.  `remote` is the transport behind
`self.client.send`; the second component is the trace of requests issued. -/
def VercelArtifactsBackend.vercel_artifacts_get (b : VercelArtifactsBackend)
    (hash : String) (remote : HttpRequest → HttpResponse) :
    Except Error HttpResponse × List HttpRequest :=
  (.ok (remote (b.get_request hash)), [b.get_request hash])

/-- The PUT request built by `vercel_artifacts_put`: URL
`https://api.vercel.com/v8/artifacts/{hash}`, bearer authorization header,
declared content length, and the given body. -/
def VercelArtifactsBackend.put_request (b : VercelArtifactsBackend) (hash : String)
    (size : Nat) (body : String) : HttpRequest :=
  { method := .PUT,
    url := "https://api.vercel.com/v8/artifacts/" ++ hash,
    headers := [("authorization", "Bearer " ++ b.access_token),
                ("content-length", toString size)],
    body := body }

/-- `VercelArtifactsBackend::vercel_artifacts_put`: build the PUT request and
send it once through the client. -/
def VercelArtifactsBackend.vercel_artifacts_put (b : VercelArtifactsBackend)
    (hash : String) (size : Nat) (body : String) (remote : HttpRequest → HttpResponse) :
    Except Error HttpResponse × List HttpRequest :=
  (.ok (remote (b.put_request hash size body)), [b.put_request hash size body])

/-- Modelled from the spec: the Vercel Artifacts error normalizer
(services/vercel_artifacts/error.rs, not under src/), following the §4.3
mapping: 401/403 to PermissionDenied, 404 to NotFound, 429/5xx to Unexpected
marked transient, anything else to Unexpected; the body is kept only as
diagnostic context. -/
def parse_error (resp : HttpResponse) : Error :=
  if resp.status = 401 ∨ resp.status = 403 then
    Error.new .PermissionDenied resp.body
  else if resp.status = 404 then
    Error.new .NotFound resp.body
  else if resp.status = 429 ∨ (500 ≤ resp.status ∧ resp.status ≤ 599) then
    { Error.new .Unexpected resp.body with temporary := true }
  else
    Error.new .Unexpected resp.body

/-- `Accessor::read` for the Vercel Artifacts backend: one
`vercel_artifacts_get`, then 200/206 parse into metadata and hand back the
response body as the reader; every other status is normalized by
`parse_error`. -/
def VercelArtifactsBackend.read (b : VercelArtifactsBackend) (path : String)
    (_args : OpRead) (remote : HttpRequest → HttpResponse) :
    Except Error (RpRead × IncomingAsyncBody) × List HttpRequest :=
  match b.vercel_artifacts_get path remote with
  | (.error e, reqs) => (.error e, reqs)
  | (.ok resp, reqs) =>
      if resp.status = 200 ∨ resp.status = 206 then
        match parse_into_metadata path resp.headers with
        | .error e => (.error e, reqs)
        | .ok meta => (.ok (RpRead.with_metadata meta, resp.body), reqs)
      else
        (.error (parse_error resp), reqs)

/-- Modelled from the spec: `VercelArtifactsWriter`
(services/vercel_artifacts/writer.rs, not under src/): per §4.2 the writer
returned by write holds the backend, the write options and the path
(`VercelArtifactsWriter::new(self.clone(), args, path)`). -/
structure VercelArtifactsWriter where
  backend : VercelArtifactsBackend
  op : OpWrite
  path : String
  deriving DecidableEq

/-- `VercelArtifactsWriter::new` -/
def VercelArtifactsWriter.new (backend : VercelArtifactsBackend) (op : OpWrite)
    (path : String) : VercelArtifactsWriter :=
  { backend := backend, op := op, path := path }

/-- Modelled from the spec: closing the writer (writer.rs, not under src/)
issues the remote write via `vercel_artifacts_put` with the declared content
length (§4.2); a non-success status is normalized by the error normalizer and
surfaces from the close, not from the original write call. -/
def VercelArtifactsWriter.close (w : VercelArtifactsWriter) (body : String)
    (remote : HttpRequest → HttpResponse) : Except Error Unit × List HttpRequest :=
  match w.backend.vercel_artifacts_put w.path (w.op.content_length.getD 0) body remote with
  | (.error e, reqs) => (.error e, reqs)
  | (.ok resp, reqs) =>
      if resp.status = 200 ∨ resp.status = 202 then (.ok (), reqs)
      else (.error (parse_error resp), reqs)

/-- `Accessor::write` for the Vercel Artifacts backend: without a declared
content length it fails immediately with Unsupported; otherwise it returns
the default write response and a writer handle.  The trace component records
the remote requests issued by the call itself: the body contains no send, so
the trace is empty on every path. -/
def VercelArtifactsBackend.write (b : VercelArtifactsBackend) (path : String)
    (args : OpWrite) :
    Except Error (RpWrite × VercelArtifactsWriter) × List HttpRequest :=
  if args.content_length.isNone then
    (.error (Error.new .Unsupported "write without content length is not supported"), [])
  else
    (.ok (RpWrite.default, VercelArtifactsWriter.new b args path), [])

/-! ## Lemmas about root normalization -/

theorem splitAux_append_not_mem (p : List Char) (cs acc : List Char) (h : '/' ∉ p) :
    splitAux (p ++ cs) acc = splitAux cs (p.reverse ++ acc) := by
  induction p generalizing acc with
  | nil => simp
  | cons c p ih =>
    have hc : ¬ c = '/' := fun hc => h (hc ▸ List.mem_cons_self c p)
    simp only [List.cons_append, splitAux, if_neg hc]
    show splitAux (p ++ cs) (c :: acc) = splitAux cs ((c :: p).reverse ++ acc)
    rw [ih (c :: acc) (fun hm => h (List.mem_cons_of_mem _ hm))]
    simp

theorem splitAux_slash (cs acc : List Char) :
    splitAux ('/' :: cs) acc = acc.reverse :: splitAux cs [] := by
  simp [splitAux]

theorem splitAux_join_concat (ps : List (List Char))
    (hslash : ∀ p ∈ ps, '/' ∉ p) (hne : ps ≠ []) :
    splitAux (joinComponents ps ++ ['/']) [] = ps ++ [[]] := by
  induction ps with
  | nil => exact absurd rfl hne
  | cons p rest ih =>
    cases rest with
    | nil =>
      simp only [joinComponents]
      rw [splitAux_append_not_mem p ['/'] [] (hslash p (List.mem_cons_self p []))]
      simp [splitAux]
    | cons q rest' =>
      simp only [joinComponents]
      rw [List.append_assoc, List.cons_append]
      rw [splitAux_append_not_mem p ('/' :: (joinComponents (q :: rest') ++ ['/'])) []
        (hslash p (List.mem_cons_self p (q :: rest')))]
      rw [splitAux_slash]
      rw [ih (fun r hr => hslash r (List.mem_cons_of_mem p hr)) (by simp)]
      simp

theorem not_slash_mem_splitAux (s : List Char) :
    ∀ acc, '/' ∉ acc → ∀ p ∈ splitAux s acc, '/' ∉ p := by
  induction s with
  | nil =>
    intro acc hacc p hp
    simp only [splitAux, List.mem_singleton] at hp
    subst hp
    simpa using hacc
  | cons c cs ih =>
    intro acc hacc p hp
    by_cases hc : c = '/'
    · subst hc
      rw [splitAux_slash] at hp
      rcases List.mem_cons.mp hp with h | h
      · subst h; simpa using hacc
      · exact ih [] (by simp) p h
    · simp only [splitAux, if_neg hc] at hp
      refine ih (c :: acc) ?_ p hp
      intro hm
      rcases List.mem_cons.mp hm with h | h
      · exact hc h.symm
      · exact hacc h

theorem mem_components_ne_nil (s : List Char) : ∀ p ∈ components s, p ≠ [] := by
  intro p hp
  have := List.of_mem_filter hp
  simpa using this

theorem mem_components_not_slash (s : List Char) : ∀ p ∈ components s, '/' ∉ p := by
  intro p hp
  exact not_slash_mem_splitAux s [] (by simp) p (List.mem_of_mem_filter hp)

theorem components_wrap (ps : List (List Char))
    (hslash : ∀ p ∈ ps, '/' ∉ p) (hne : ∀ p ∈ ps, p ≠ []) (h : ps ≠ []) :
    components ('/' :: joinComponents ps ++ ['/']) = ps := by
  unfold components
  rw [List.cons_append, splitAux_slash, splitAux_join_concat ps hslash h]
  have h2 : List.filter (fun p => decide (p ≠ [])) ps = ps :=
    List.filter_eq_self.mpr (fun a ha => by simpa using hne a ha)
  simp [List.filter_cons, List.filter_append, h2]
  exact fun a ha => hne a ha

theorem normalize_root_idem (v : String) :
    normalize_root (normalize_root v) = normalize_root v := by
  unfold normalize_root
  cases h : components v.data with
  | nil => rfl
  | cons p rest =>
    have hslash : ∀ q ∈ p :: rest, '/' ∉ q := h ▸ mem_components_not_slash v.data
    have hnil : ∀ q ∈ p :: rest, q ≠ [] := h ▸ mem_components_ne_nil v.data
    have hc : components (String.mk ('/' :: joinComponents (p :: rest) ++ ['/'])).data
        = p :: rest := components_wrap (p :: rest) hslash hnil (by simp)
    simp only [hc]

theorem normalize_root_head (v : String) :
    (normalize_root v).data.head? = some '/' := by
  unfold normalize_root
  cases components v.data with
  | nil => rfl
  | cons p rest => rfl

theorem normalize_root_last (v : String) :
    (normalize_root v).data.getLast? = some '/' := by
  unfold normalize_root
  cases components v.data with
  | nil => rfl
  | cons p rest =>
    show ('/' :: joinComponents (p :: rest) ++ ['/']).getLast? = some '/'
    simp [List.getLast?_cons, List.getLast?_append]

/-! ## Claim theorems -/

/-- Claim C1: for every write call whose options do not include a content
length, the Vercel Artifacts write fails immediately with an error of kind
Unsupported, and no remote request is issued before that failure is returned
(the request trace of the call is empty). -/
theorem c1_write_without_length_fails_unsupported (b : VercelArtifactsBackend)
    (path : String) (args : OpWrite) (h : args.content_length = none) :
    b.write path args
      = (.error (Error.new .Unsupported "write without content length is not supported"), []) := by
  unfold VercelArtifactsBackend.write
  rw [h]
  rfl

/-- Witness for C1 at a concrete backend, path and options. -/
theorem c1_witness :
    ({ content_length := none : OpWrite }.content_length = none)
    ∧ VercelArtifactsBackend.write ⟨"tok1", {}⟩ "abc.txt" { content_length := none }
      = (.error (Error.new .Unsupported "write without content length is not supported"), []) :=
  ⟨rfl, c1_write_without_length_fails_unsupported ⟨"tok1", {}⟩ "abc.txt"
    { content_length := none } rfl⟩

/-- Claim C2: for every builder state in which the access token is unset,
build() returns a ConfigInvalid error whose message states the missing field
name ("access_token" occurs in the message), and no backend instance is
produced.  The external `HttpClient::new()` outcome is its spec-modelled
value `HttpClient.new`. -/
theorem c2_build_without_token_config_invalid (b : GdriveBuilder)
    (h : b.access_token = none) :
    (b.build HttpClient.new).1 = .error (Error.new .ConfigInvalid "access_token not set")
    ∧ (Error.new .ConfigInvalid "access_token not set").kind = .ConfigInvalid
    ∧ "access_token".data <:+: (Error.new .ConfigInvalid "access_token not set").message.data := by
  refine ⟨?_, rfl, by decide⟩
  unfold GdriveBuilder.build HttpClient.new
  cases hc : b.http_client <;> rw [h]

/-- Witness for C2 at the default (all-unset) builder. -/
theorem c2_witness :
    (({} : GdriveBuilder).access_token = none)
    ∧ ((({} : GdriveBuilder).build HttpClient.new).1
        = .error (Error.new .ConfigInvalid "access_token not set")
      ∧ (Error.new .ConfigInvalid "access_token not set").kind = .ConfigInvalid
      ∧ "access_token".data <:+: (Error.new .ConfigInvalid "access_token not set").message.data) :=
  ⟨rfl, c2_build_without_token_config_invalid {} rfl⟩

/-- Counterexample to claim C3 as stated: build() does not empty the
credential field — for the builder holding access token "tok1" and root
"/work", the builder state after build() still holds the access token
(it is cloned, not taken). -/
theorem c3_counterexample :
    ¬ ((GdriveBuilder.build { access_token := some "tok1", root := some "/work" }
          HttpClient.new).2.access_token = none) := by
  decide

/-- Claim C3 (amended): build() consumes the root and transport-client
fields — after any call to build() they are observed empty — but the
credential field is cloned rather than moved, so it retains its prior
value. -/
theorem c3_build_consumes_root_and_client (b : GdriveBuilder)
    (newClient : Except Error HttpClient) :
    (b.build newClient).2.root = none
    ∧ (b.build newClient).2.http_client = none
    ∧ (b.build newClient).2.access_token = b.access_token := by
  unfold GdriveBuilder.build
  cases b.http_client <;> cases newClient <;> cases b.access_token <;>
    exact ⟨rfl, rfl, rfl⟩

/-- Counterexample to claim C4 as stated: the VercelArtifactsBackend's debug
formatting does contain the access token — for the backend with token "tok1"
the token appears verbatim in the debug output. -/
theorem c4_counterexample :
    "tok1".data <:+: (VercelArtifactsBackend.debugFmt ⟨"tok1", {}⟩).data := by
  decide

/-- Claim C4 (amended): the Gdrive builder's debug formatting and the
build-time diagnostic record are functions of the root field alone — two
builders agreeing on the root produce identical debug output and identical
build-time records, so the credential never flows into either — while the
VercelArtifactsBackend's debug formatting does include the access token
(shown concretely for token "tok1"). -/
theorem c4_gdrive_diagnostics_root_only :
    (∀ b1 b2 : GdriveBuilder, b1.root = b2.root →
        b1.debugFmt = b2.debugFmt ∧ b1.buildLogMsg = b2.buildLogMsg)
    ∧ "tok1".data <:+: (VercelArtifactsBackend.debugFmt ⟨"tok1", ⟨5⟩⟩).data := by
  constructor
  · intro b1 b2 h
    unfold GdriveBuilder.debugFmt GdriveBuilder.buildLogMsg
    rw [h]
    exact ⟨rfl, rfl⟩
  · decide

/-- Witness for C4 (amended): two builders sharing root "r" but differing in
credential and transport client produce identical diagnostics. -/
theorem c4_witness :
    GdriveBuilder.debugFmt { access_token := some "secret", root := some "r", http_client := some ⟨3⟩ }
      = GdriveBuilder.debugFmt { root := some "r" }
    ∧ GdriveBuilder.buildLogMsg { access_token := some "secret", root := some "r", http_client := some ⟨3⟩ }
      = GdriveBuilder.buildLogMsg { root := some "r" } :=
  c4_gdrive_diagnostics_root_only.1
    { access_token := some "secret", root := some "r", http_client := some ⟨3⟩ }
    { root := some "r" } rfl

/-- Claim C5: from_map produces exactly the builder state reached from the
default builder by applying the root setter for key "root" when present and
the access-token setter for key "access_token" when present; every other key
has no effect, and the transport-client field stays unset. -/
theorem c5_from_map_setter_equivalence (m : ConfigMap) :
    (GdriveBuilder.from_map m).root = m.lookup "root"
    ∧ (GdriveBuilder.from_map m).access_token = m.lookup "access_token"
    ∧ (GdriveBuilder.from_map m).http_client = none
    ∧ (∀ m' : ConfigMap, m.lookup "root" = m'.lookup "root" →
        m.lookup "access_token" = m'.lookup "access_token" →
        GdriveBuilder.from_map m = GdriveBuilder.from_map m') := by
  refine ⟨?_, ?_, ?_, ?_⟩
  · cases hr : m.lookup "root" <;> cases ha : m.lookup "access_token" <;>
      simp [GdriveBuilder.from_map, hr, ha, GdriveBuilder.set_root,
        GdriveBuilder.set_access_token]
  · cases hr : m.lookup "root" <;> cases ha : m.lookup "access_token" <;>
      simp [GdriveBuilder.from_map, hr, ha, GdriveBuilder.set_root,
        GdriveBuilder.set_access_token]
  · cases hr : m.lookup "root" <;> cases ha : m.lookup "access_token" <;>
      simp [GdriveBuilder.from_map, hr, ha, GdriveBuilder.set_root,
        GdriveBuilder.set_access_token]
  · intro m' h1 h2
    unfold GdriveBuilder.from_map
    rw [h1, h2]

/-- Witness for C5: a map with an extra unknown key and a reordered map
produce the same builder, with fields equal to the looked-up values. -/
theorem c5_witness :
    (GdriveBuilder.from_map [("root", "/work"), ("access_token", "tok1"), ("extra", "zzz")]).root
      = some "/work"
    ∧ GdriveBuilder.from_map [("root", "/work"), ("access_token", "tok1"), ("extra", "zzz")]
      = GdriveBuilder.from_map [("access_token", "tok1"), ("root", "/work")] :=
  ⟨(c5_from_map_setter_equivalence
      [("root", "/work"), ("access_token", "tok1"), ("extra", "zzz")]).1,
   (c5_from_map_setter_equivalence
      [("root", "/work"), ("access_token", "tok1"), ("extra", "zzz")]).2.2.2
      [("access_token", "tok1"), ("root", "/work")] rfl rfl⟩

/-- Claim C6: build() resolves the transport client before validating the
credential: with an injected client it builds with that client (for any
outcome of default construction); when no client is injected and default
construction fails, the result is that error enriched with the operation name
and the service identifier, with its kind preserved (ConfigInvalid-class per
the spec-modelled transport), and the credential is never checked — the
result is the same for every credential value. -/
theorem c6_build_resolves_transport_first (b : GdriveBuilder)
    (newClient : Except Error HttpClient) :
    (∀ c, b.http_client = some c → ∀ tok, b.access_token = some tok →
        (b.build newClient).1
          = .ok (GdriveBackend.new (normalize_root (b.root.getD "")) tok c))
    ∧ (∀ e, b.http_client = none → newClient = .error e →
        (b.build newClient).1
          = .error ((e.with_operation "Builder::build").with_context "service" "gdrive")
        ∧ ((e.with_operation "Builder::build").with_context "service" "gdrive").kind = e.kind
        ∧ ((e.with_operation "Builder::build").with_context "service" "gdrive").operation
          = some "Builder::build"
        ∧ ("service", "gdrive")
          ∈ ((e.with_operation "Builder::build").with_context "service" "gdrive").context
        ∧ (∀ t : Option String,
            (GdriveBuilder.build { b with access_token := t } newClient).1
              = (b.build newClient).1)) := by
  constructor
  · intro c hc tok htok
    unfold GdriveBuilder.build
    rw [hc, htok]
  · intro e hc he
    refine ⟨?_, rfl, rfl, by simp [Error.with_context, Error.with_operation], ?_⟩
    · unfold GdriveBuilder.build
      rw [hc, he]
      rfl
    · intro t
      unfold GdriveBuilder.build
      rw [he]
      cases hb : b.http_client with
      | none => rfl
      | some c => exact absurd hb (by rw [hc]; exact fun h => Option.noConfusion h)

/-- Witness for C6: an injected client wins regardless of the default
construction outcome, and a failing default construction surfaces enriched,
before any credential check (the all-unset builder gets the transport error,
not the missing-credential error). -/
theorem c6_witness :
    (GdriveBuilder.build { access_token := some "tok1", http_client := some ⟨7⟩ }
        (.error (Error.new .Unexpected "boom"))).1
      = .ok (GdriveBackend.new (normalize_root "") "tok1" ⟨7⟩)
    ∧ (GdriveBuilder.build {} (.error (Error.new .ConfigInvalid "client fail"))).1
      = .error (((Error.new .ConfigInvalid "client fail").with_operation
          "Builder::build").with_context "service" "gdrive") :=
  ⟨(c6_build_resolves_transport_first
      { access_token := some "tok1", http_client := some ⟨7⟩ }
      (.error (Error.new .Unexpected "boom"))).1 ⟨7⟩ rfl "tok1" rfl,
   ((c6_build_resolves_transport_first {} (.error (Error.new .ConfigInvalid "client fail"))).2
      (Error.new .ConfigInvalid "client fail") rfl rfl).1⟩

/-- Claim C7: for every read call where the remote responds with status 404,
the caller receives an error of kind NotFound, and exactly one remote request
is issued for that read invocation (the trace is the single GET request, with
no retry in this layer). -/
theorem c7_read_404_not_found (b : VercelArtifactsBackend) (path : String)
    (args : OpRead) (remote : HttpRequest → HttpResponse)
    (h : (remote (b.get_request path)).status = 404) :
    (b.read path args remote).1 = .error (parse_error (remote (b.get_request path)))
    ∧ (parse_error (remote (b.get_request path))).kind = .NotFound
    ∧ (b.read path args remote).2 = [b.get_request path]
    ∧ (b.read path args remote).2.length = 1 := by
  have hneq : ¬ ((remote (b.get_request path)).status = 200
      ∨ (remote (b.get_request path)).status = 206) := by
    rw [h]; decide
  have hr : b.read path args remote
      = (.error (parse_error (remote (b.get_request path))), [b.get_request path]) := by
    simp only [VercelArtifactsBackend.read, VercelArtifactsBackend.vercel_artifacts_get]
    rw [if_neg hneq]
  have h1 : ¬ ((remote (b.get_request path)).status = 401
      ∨ (remote (b.get_request path)).status = 403) := by
    rw [h]; decide
  have hk : (parse_error (remote (b.get_request path))).kind = .NotFound := by
    unfold parse_error
    rw [if_neg h1, if_pos h]
    rfl
  exact ⟨by rw [hr], hk, by rw [hr], by rw [hr]; rfl⟩

/-- Witness for C7: a transport double answering 404 to everything. -/
theorem c7_witness :
    ((fun _ => { status := 404 } : HttpRequest → HttpResponse)
        (VercelArtifactsBackend.get_request ⟨"tok1", {}⟩ "abc.txt")).status = 404
    ∧ ((VercelArtifactsBackend.read ⟨"tok1", {}⟩ "abc.txt" {}
          (fun _ => { status := 404 })).1
        = .error (parse_error ((fun _ => { status := 404 } : HttpRequest → HttpResponse)
            (VercelArtifactsBackend.get_request ⟨"tok1", {}⟩ "abc.txt")))
      ∧ (parse_error ((fun _ => { status := 404 } : HttpRequest → HttpResponse)
            (VercelArtifactsBackend.get_request ⟨"tok1", {}⟩ "abc.txt"))).kind = .NotFound
      ∧ (VercelArtifactsBackend.read ⟨"tok1", {}⟩ "abc.txt" {}
          (fun _ => { status := 404 })).2
        = [VercelArtifactsBackend.get_request ⟨"tok1", {}⟩ "abc.txt"]
      ∧ (VercelArtifactsBackend.read ⟨"tok1", {}⟩ "abc.txt" {}
          (fun _ => { status := 404 })).2.length = 1) :=
  ⟨rfl, c7_read_404_not_found ⟨"tok1", {}⟩ "abc.txt" {} (fun _ => { status := 404 }) rfl⟩

/-- Claim C8: info() is a pure query — in this embedding a function of the
backend with no state to mutate — and every call on every backend returns the
same fixed Capability Descriptor: scheme VercelArtifacts with read and write
true and delete, list, rename and copy at their default false values. -/
theorem c8_info_fixed_capability (b : VercelArtifactsBackend) :
    b.info = { scheme := some .VercelArtifacts,
               capability := { read := true, write := true, delete := false,
                               list := false, rename := false, copy := false } }
    ∧ (∀ b' : VercelArtifactsBackend, b.info = b'.info) :=
  ⟨rfl, fun _ => rfl⟩

/-- Claim C9: root normalization, as applied by build() to the configured
root (with unset root defaulting to the empty string via `unwrap_or_default`),
is idempotent, its result always begins and ends with the separator
character, and empty or absent input normalizes to the root scope "/". -/
theorem c9_normalize_root_properties (v : String) :
    normalize_root (normalize_root v) = normalize_root v
    ∧ (normalize_root v).data.head? = some '/'
    ∧ (normalize_root v).data.getLast? = some '/'
    ∧ normalize_root "" = "/"
    ∧ normalize_root ((none : Option String).getD "") = "/" :=
  ⟨normalize_root_idem v, normalize_root_head v, normalize_root_last v, rfl, rfl⟩

/-- Claim C10: for every write call whose options include a content length,
the Vercel Artifacts write always succeeds with the default write response
and a writer handle over the backend, the options and the path, issuing no
remote request itself; the remote PUT — carrying the bearer authorization
header and the declared Content-Length — is issued only later through the
returned writer, and a non-success remote status surfaces as an error from
the writer's close, never from the write call. -/
theorem c10_write_with_length_defers_put (b : VercelArtifactsBackend)
    (path : String) (args : OpWrite) (n : Nat) (h : args.content_length = some n) :
    b.write path args
      = (.ok (RpWrite.default, VercelArtifactsWriter.new b args path), [])
    ∧ (∀ body remote,
        ((VercelArtifactsWriter.new b args path).close body remote).2
          = [b.put_request path n body])
    ∧ (∀ body, (b.put_request path n body).method = .PUT
        ∧ ("authorization", "Bearer " ++ b.access_token) ∈ (b.put_request path n body).headers
        ∧ ("content-length", toString n) ∈ (b.put_request path n body).headers)
    ∧ (∀ body remote, ¬ ((remote (b.put_request path n body)).status = 200
          ∨ (remote (b.put_request path n body)).status = 202) →
        ((VercelArtifactsWriter.new b args path).close body remote).1
          = .error (parse_error (remote (b.put_request path n body)))) := by
  refine ⟨?_, ?_, ?_, ?_⟩
  · unfold VercelArtifactsBackend.write
    rw [h]
    rfl
  · intro body remote
    simp only [VercelArtifactsWriter.close, VercelArtifactsWriter.new,
      VercelArtifactsBackend.vercel_artifacts_put, h, Option.getD_some]
    by_cases hs : (remote (b.put_request path n body)).status = 200
        ∨ (remote (b.put_request path n body)).status = 202
    · rw [if_pos hs]
    · rw [if_neg hs]
  · exact fun body => ⟨rfl, by simp [VercelArtifactsBackend.put_request],
      by simp [VercelArtifactsBackend.put_request]⟩
  · intro body remote hs
    simp only [VercelArtifactsWriter.close, VercelArtifactsWriter.new,
      VercelArtifactsBackend.vercel_artifacts_put, h, Option.getD_some]
    rw [if_neg hs]

/-- Witness for C10: a write of 11 declared bytes returns the writer without
touching the remote; closing the writer against a remote answering 500 issues
exactly the expected PUT and surfaces the normalized error from close. -/
theorem c10_witness :
    ({ content_length := some 11 : OpWrite }.content_length = some 11)
    ∧ VercelArtifactsBackend.write ⟨"tok1", {}⟩ "abc.txt" { content_length := some 11 }
      = (.ok (RpWrite.default,
          VercelArtifactsWriter.new ⟨"tok1", {}⟩ { content_length := some 11 } "abc.txt"), [])
    ∧ ((VercelArtifactsWriter.new ⟨"tok1", {}⟩ { content_length := some 11 } "abc.txt").close
        "who are you" (fun _ => { status := 500 })).2
      = [VercelArtifactsBackend.put_request ⟨"tok1", {}⟩ "abc.txt" 11 "who are you"] :=
  ⟨rfl,
   (c10_write_with_length_defers_put ⟨"tok1", {}⟩ "abc.txt" { content_length := some 11 }
      11 rfl).1,
   (c10_write_with_length_defers_put ⟨"tok1", {}⟩ "abc.txt" { content_length := some 11 }
      11 rfl).2.1 "who are you" (fun _ => { status := 500 })⟩

end OpendalCore
